import Mathlib

/-!
Verification of the order-evaluation engine in `sdk/src/math/orders.ts`
(protocol-v2). Fixed-point `BN` quantities are embedded as `Int`
(arbitrary-precision, matching bn.js), slots and timestamps as `Nat`.
The external collaborators (`isAuctionComplete`, `getAuctionPrice`,
`calculateUpdatedAMM`, `calculateMaxBaseAssetAmountToTrade`,
`calculateMaxBaseAssetAmountFillable`) are consumed as capabilities, so the
embedding takes them as explicit parameters and the theorems quantify over
them.
-/

namespace Orders

/-- `OrderStatus` variants: `init` (uninitialized), `open`, `filled`,
`canceled`. `open` is a Lean keyword, hence `open_`. -/
inductive OrderStatus where
  | init
  | open_
  | filled
  | canceled
deriving DecidableEq, Repr

/-- `OrderType` variants. -/
inductive OrderType where
  | market
  | limit
  | triggerMarket
  | triggerLimit
  | oracle
deriving DecidableEq, Repr

/-- `PositionDirection` variants. -/
inductive PositionDirection where
  | long
  | short
deriving DecidableEq, Repr

/-- `OrderTriggerCondition` variants. -/
inductive OrderTriggerCondition where
  | above
  | below
  | triggeredAbove
  | triggeredBelow
deriving DecidableEq, Repr

/-- The fields of `Order` read by `math/orders.ts`. `BN` fields are `Int`;
`oraclePriceOffset` is a plain JS number holding an integer. -/
structure Order where
  status : OrderStatus
  orderType : OrderType
  direction : PositionDirection
  marketIndex : Nat
  baseAssetAmount : Int
  baseAssetAmountFilled : Int
  price : Int
  oraclePriceOffset : Int
  auctionStartPrice : Int
  auctionEndPrice : Int
  triggerCondition : OrderTriggerCondition
  maxTs : Int
  postOnly : Bool
deriving DecidableEq, Repr

/-- The only field of a perp position the engine reads. -/
structure PerpPosition where
  baseAssetAmount : Int
deriving DecidableEq, Repr

/-- A `User` as seen by this module: `getPerpPosition` returns the position
for a market index, or `undefined` (`none`) when the user has none. -/
structure User where
  getPerpPosition : Nat → Option PerpPosition

/-- `user.getEmptyPosition(marketIndex)`: a position with zero
`baseAssetAmount`. -/
def User.getEmptyPosition (_ : User) (_ : Nat) : PerpPosition :=
  { baseAssetAmount := 0 }

/-- `user.getPerpPosition(order.marketIndex) ||
user.getEmptyPosition(order.marketIndex)` — JS `||` falls through to the
empty position exactly when `getPerpPosition` returns `undefined`. -/
def resolvePosition (user : User) (marketIndex : Nat) : PerpPosition :=
  (user.getPerpPosition marketIndex).getD (user.getEmptyPosition marketIndex)

/-- AMM fields read directly by this module; the curve parameters consumed
opaquely by the curve-math collaborators need no explicit representation
because those collaborators are taken as functions of the whole `AMM`. -/
structure AMM where
  minOrderSize : Int
  orderTickSize : Int
  orderStepSize : Int
deriving DecidableEq, Repr

/-- A perp market snapshot: the engine only reads `market.amm`. -/
structure PerpMarketAccount where
  amm : AMM
deriving DecidableEq, Repr

/-- Oracle price data: the engine only reads `.price`. -/
structure OraclePriceData where
  price : Int
deriving DecidableEq, Repr

/-- The auction collaborator capability (`math/auction.ts`):
`isAuctionComplete(order, slot)` and `getAuctionPrice(order, slot,
oraclePrice)`. -/
structure AuctionOracle where
  isAuctionComplete : Order → Nat → Bool
  getAuctionPrice : Order → Nat → Int → Int

/-- The curve-math collaborator capability (`math/amm.ts`). -/
structure AmmMath where
  calculateUpdatedAMM : AMM → OraclePriceData → AMM
  calculateMaxBaseAssetAmountToTrade :
    AMM → Int → PositionDirection → OraclePriceData → Int × PositionDirection
  calculateMaxBaseAssetAmountFillable : AMM → PositionDirection → Int

/-- `isOrderRiskIncreasing(user, order)`. -/
def isOrderRiskIncreasing (user : User) (order : Order) : Bool :=
  if order.status = OrderStatus.init then
    false
  else
    let position := resolvePosition user order.marketIndex
    -- if no position exists, it's risk increasing
    if position.baseAssetAmount = 0 then
      true
    -- if position is long and order is long
    else if 0 < position.baseAssetAmount ∧
        order.direction = PositionDirection.long then
      true
    -- if position is short and order is short
    else if position.baseAssetAmount < 0 ∧
        order.direction = PositionDirection.short then
      true
    else
      let baseAssetAmountToFill :=
        order.baseAssetAmount - order.baseAssetAmountFilled
      -- if order will flip position
      if |position.baseAssetAmount| * 2 < baseAssetAmountToFill then
        true
      else
        false

/-- `isOrderRiskIncreasingInSameDirection(user, order)`. -/
def isOrderRiskIncreasingInSameDirection (user : User) (order : Order) :
    Bool :=
  if order.status = OrderStatus.init then
    false
  else
    let position := resolvePosition user order.marketIndex
    if position.baseAssetAmount = 0 then
      true
    else if 0 < position.baseAssetAmount ∧
        order.direction = PositionDirection.long then
      true
    else if position.baseAssetAmount < 0 ∧
        order.direction = PositionDirection.short then
      true
    else
      false

/-- `isOrderReduceOnly(user, order)`. -/
def isOrderReduceOnly (user : User) (order : Order) : Bool :=
  if order.status = OrderStatus.init then
    false
  else
    let position := resolvePosition user order.marketIndex
    if 0 ≤ position.baseAssetAmount ∧
        order.direction = PositionDirection.long then
      false
    else if position.baseAssetAmount ≤ 0 ∧
        order.direction = PositionDirection.short then
      false
    else
      true

/-- `standardizeBaseAssetAmount(baseAssetAmount, stepSize)`; bn.js `mod`
is the truncated-division remainder, i.e. `Int.tmod`. -/
def standardizeBaseAssetAmount (baseAssetAmount stepSize : Int) : Int :=
  let remainder := baseAssetAmount.tmod stepSize
  baseAssetAmount - remainder

/-- `hasAuctionPrice(order, slot)`. -/
def hasAuctionPrice (ao : AuctionOracle) (order : Order) (slot : Nat) :
    Bool :=
  !ao.isAuctionComplete order slot &&
    (decide (order.auctionStartPrice ≠ 0) ||
      decide (order.auctionEndPrice ≠ 0))

/-- `getLimitPrice(order, oraclePriceData, slot, fallbackPrice?)`; the
optional `fallbackPrice` and the possibly-`undefined` result are `Option`. -/
def getLimitPrice (ao : AuctionOracle) (order : Order)
    (oraclePriceData : OraclePriceData) (slot : Nat)
    (fallbackPrice : Option Int) : Option Int :=
  if hasAuctionPrice ao order slot then
    some (ao.getAuctionPrice order slot oraclePriceData.price)
  else if order.oraclePriceOffset ≠ 0 then
    some (oraclePriceData.price + order.oraclePriceOffset)
  else if order.price = 0 then
    fallbackPrice
  else
    some order.price

/-- `hasLimitPrice(order, slot)`. -/
def hasLimitPrice (ao : AuctionOracle) (order : Order) (slot : Nat) : Bool :=
  decide (0 < order.price) || decide (order.oraclePriceOffset ≠ 0) ||
    !ao.isAuctionComplete order slot

/-- `isSameDirection(firstDirection, secondDirection)`. -/
def isSameDirection (firstDirection secondDirection : PositionDirection) :
    Bool :=
  (decide (firstDirection = PositionDirection.long) &&
      decide (secondDirection = PositionDirection.long)) ||
    (decide (firstDirection = PositionDirection.short) &&
      decide (secondDirection = PositionDirection.short))

/-- `calculateBaseAssetAmountToFillUpToLimitPrice(order, amm, limitPrice,
oraclePriceData)`. -/
def calculateBaseAssetAmountToFillUpToLimitPrice (am : AmmMath)
    (order : Order) (amm : AMM) (limitPrice : Int)
    (oraclePriceData : OraclePriceData) : Int :=
  let adjustedLimitPrice :=
    if order.direction = PositionDirection.long then
      limitPrice - amm.orderTickSize
    else
      limitPrice + amm.orderTickSize
  let res := am.calculateMaxBaseAssetAmountToTrade amm adjustedLimitPrice
    order.direction oraclePriceData
  let maxAmountToTrade := res.1
  let direction := res.2
  let baseAssetAmount :=
    standardizeBaseAssetAmount maxAmountToTrade amm.orderStepSize
  -- Check that directions are the same
  let sameDirection := isSameDirection direction order.direction
  if !sameDirection then
    0
  else
    let baseAssetAmountUnfilled :=
      order.baseAssetAmount - order.baseAssetAmountFilled
    if baseAssetAmountUnfilled < baseAssetAmount then
      baseAssetAmountUnfilled
    else
      baseAssetAmount

/-- `mustBeTriggered(order)`. -/
def mustBeTriggered (order : Order) : Bool :=
  decide (order.orderType = OrderType.triggerMarket) ||
    decide (order.orderType = OrderType.triggerLimit)

/-- `isTriggered(order)`. -/
def isTriggered (order : Order) : Bool :=
  decide (order.triggerCondition = OrderTriggerCondition.triggeredAbove) ||
    decide (order.triggerCondition = OrderTriggerCondition.triggeredBelow)

/-- `calculateBaseAssetAmountForAmmToFulfill(order, market,
oraclePriceData, slot)`; `BN.min` is `min` on `Int`. -/
def calculateBaseAssetAmountForAmmToFulfill (ao : AuctionOracle)
    (am : AmmMath) (order : Order) (market : PerpMarketAccount)
    (oraclePriceData : OraclePriceData) (slot : Nat) : Int :=
  if mustBeTriggered order && !isTriggered order then
    0
  else
    let limitPrice := getLimitPrice ao order oraclePriceData slot none
    let updatedAMM := am.calculateUpdatedAMM market.amm oraclePriceData
    let baseAssetAmount :=
      match limitPrice with
      | some lp =>
        calculateBaseAssetAmountToFillUpToLimitPrice am order updatedAMM lp
          oraclePriceData
      | none => order.baseAssetAmount - order.baseAssetAmountFilled
    let maxBaseAssetAmount :=
      am.calculateMaxBaseAssetAmountFillable updatedAMM order.direction
    min maxBaseAssetAmount baseAssetAmount

/-- `isOrderExpired(order, ts)`. -/
def isOrderExpired (order : Order) (ts : Nat) : Bool :=
  if mustBeTriggered order || decide (order.status ≠ OrderStatus.open_) ||
      decide (order.maxTs = 0) then
    false
  else
    decide (order.maxTs < (ts : Int))

/-- `isFillableByVAMM(order, market, oraclePriceData, slot, ts)`. -/
def isFillableByVAMM (ao : AuctionOracle) (am : AmmMath) (order : Order)
    (market : PerpMarketAccount) (oraclePriceData : OraclePriceData)
    (slot : Nat) (ts : Nat) : Bool :=
  (ao.isAuctionComplete order slot &&
      decide (market.amm.minOrderSize ≤
        calculateBaseAssetAmountForAmmToFulfill ao am order market
          oraclePriceData slot)) ||
    isOrderExpired order ts

/-- `isMarketOrder(order)`. -/
def isMarketOrder (order : Order) : Bool :=
  decide (order.orderType = OrderType.market) ||
    decide (order.orderType = OrderType.triggerMarket) ||
    decide (order.orderType = OrderType.oracle)

/-- `isLimitOrder(order)`. -/
def isLimitOrder (order : Order) : Bool :=
  decide (order.orderType = OrderType.limit) ||
    decide (order.orderType = OrderType.triggerLimit)

/-- `isRestingLimitOrder(order, slot)`. -/
def isRestingLimitOrder (ao : AuctionOracle) (order : Order) (slot : Nat) :
    Bool :=
  isLimitOrder order && (order.postOnly || ao.isAuctionComplete order slot)

/-- `isTakingOrder(order, slot)`. -/
def isTakingOrder (ao : AuctionOracle) (order : Order) (slot : Nat) : Bool :=
  isMarketOrder order || !isRestingLimitOrder ao order slot

/-! Concrete sample inputs used to instantiate the theorems below. -/

/-- A sample auction oracle whose auctions are always complete. -/
def auctionDone : AuctionOracle :=
  { isAuctionComplete := fun _ _ => true,
    getAuctionPrice := fun _ _ p => p }

/-- A sample auction oracle whose auctions never complete; its auction
price is the oracle price plus one. -/
def auctionLive : AuctionOracle :=
  { isAuctionComplete := fun _ _ => false,
    getAuctionPrice := fun _ _ p => p + 1 }

/-- The opposite position direction (builds a mismatching curve sample). -/
def flipDirection : PositionDirection → PositionDirection
  | PositionDirection.long => PositionDirection.short
  | PositionDirection.short => PositionDirection.long

/-- A sample curve-math collaborator that reports the requested direction
with tradable quantity 1250 and maximum fillable quantity 800. -/
def ammMathAligned : AmmMath :=
  { calculateUpdatedAMM := fun a _ => a,
    calculateMaxBaseAssetAmountToTrade := fun _ _ d _ => (1250, d),
    calculateMaxBaseAssetAmountFillable := fun _ _ => 800 }

/-- A sample curve-math collaborator that reports the opposite direction
with a positive tradable quantity. -/
def ammMathOpposed : AmmMath :=
  { calculateUpdatedAMM := fun a _ => a,
    calculateMaxBaseAssetAmountToTrade := fun _ _ d _ =>
      (500, flipDirection d),
    calculateMaxBaseAssetAmountFillable := fun _ _ => 1000 }

/-- A sample user with a long position of 10 in every market. -/
def userLong10 : User :=
  { getPerpPosition := fun _ => some { baseAssetAmount := 10 } }

/-- A sample user with no position in any market. -/
def userFlat : User :=
  { getPerpPosition := fun _ => none }

/-- A sample open long limit order. -/
def baseOrder : Order :=
  { status := OrderStatus.open_,
    orderType := OrderType.limit,
    direction := PositionDirection.long,
    marketIndex := 0,
    baseAssetAmount := 100,
    baseAssetAmountFilled := 0,
    price := 50,
    oraclePriceOffset := 0,
    auctionStartPrice := 0,
    auctionEndPrice := 0,
    triggerCondition := OrderTriggerCondition.above,
    maxTs := 0,
    postOnly := false }

/-- A short order with unfilled remainder 21, against `userLong10`. -/
def orderShort21 : Order :=
  { baseOrder with direction := PositionDirection.short,
                   baseAssetAmount := 21 }

/-- An order with a live auction bound and a non-zero oracle offset. -/
def orderAuction : Order :=
  { baseOrder with auctionStartPrice := 5, oraclePriceOffset := 7 }

/-- An untriggered trigger-market order. -/
def orderTrigger : Order :=
  { baseOrder with orderType := OrderType.triggerMarket }

/-- An uninitialized order. -/
def orderInit : Order :=
  { baseOrder with status := OrderStatus.init }

/-- A sample market snapshot. -/
def sampleMarket : PerpMarketAccount :=
  { amm := { minOrderSize := 1, orderTickSize := 1, orderStepSize := 100 } }

/-- A sample oracle price. -/
def sampleOracle : OraclePriceData :=
  { price := 1000 }

/-! Helper lemmas shared by the claim theorems. -/

/-- `isSameDirection` is just equality of the two directions. -/
theorem isSameDirection_eq_decide (a b : PositionDirection) :
    isSameDirection a b = decide (a = b) := by
  cases a <;> cases b <;> rfl

/-- `hasAuctionPrice` characterized as a proposition. -/
theorem hasAuctionPrice_iff (ao : AuctionOracle) (order : Order)
    (slot : Nat) :
    hasAuctionPrice ao order slot = true ↔
      ao.isAuctionComplete order slot = false ∧
        (order.auctionStartPrice ≠ 0 ∨ order.auctionEndPrice ≠ 0) := by
  simp [hasAuctionPrice]

/-- C1: for every open order whose direction opposes the trader's non-zero
position, `isOrderRiskIncreasing` returns true iff the unfilled remainder
exceeds twice the absolute position size, and
`isOrderRiskIncreasingInSameDirection` returns false. -/
theorem isOrderRiskIncreasing_flip_rule (user : User) (order : Order)
    (hstatus : order.status = OrderStatus.open_)
    (hopp : (0 < (resolvePosition user order.marketIndex).baseAssetAmount ∧
        order.direction = PositionDirection.short) ∨
      ((resolvePosition user order.marketIndex).baseAssetAmount < 0 ∧
        order.direction = PositionDirection.long)) :
    (isOrderRiskIncreasing user order = true ↔
      |(resolvePosition user order.marketIndex).baseAssetAmount| * 2 <
        order.baseAssetAmount - order.baseAssetAmountFilled) ∧
    isOrderRiskIncreasingInSameDirection user order = false := by
  have hni : order.status ≠ OrderStatus.init := by
    rw [hstatus]; intro hc; cases hc
  rcases hopp with ⟨hp, hd⟩ | ⟨hp, hd⟩ <;>
    constructor <;>
      simp [isOrderRiskIncreasing, isOrderRiskIncreasingInSameDirection,
        hni, hd, hp.ne', hp.ne, lt_asymm hp]

/-- C1 witness: position +10 long, short order with remainder 21 > 20 is
risk-increasing but not same-direction risk-increasing. -/
theorem isOrderRiskIncreasing_flip_rule_witness :
    isOrderRiskIncreasing userLong10 orderShort21 = true ∧
    isOrderRiskIncreasingInSameDirection userLong10 orderShort21 = false := by
  have h := isOrderRiskIncreasing_flip_rule userLong10 orderShort21 rfl
    (Or.inl ⟨by decide, rfl⟩)
  exact ⟨h.1.mpr (by decide), h.2⟩

/-- C3: `isFillableByVAMM` is true iff the auction is complete and the
curve-fillable quantity reaches `minOrderSize`, or the order is expired. -/
theorem isFillableByVAMM_iff (ao : AuctionOracle) (am : AmmMath)
    (order : Order) (market : PerpMarketAccount)
    (oraclePriceData : OraclePriceData) (slot : Nat) (ts : Nat) :
    isFillableByVAMM ao am order market oraclePriceData slot ts = true ↔
      (ao.isAuctionComplete order slot = true ∧
        market.amm.minOrderSize ≤
          calculateBaseAssetAmountForAmmToFulfill ao am order market
            oraclePriceData slot) ∨
      isOrderExpired order ts = true := by
  simp [isFillableByVAMM]

/-- C4: an untriggered trigger order yields a zero curve-fillable
quantity regardless of market, oracle, and slot. -/
theorem calculateBaseAssetAmountForAmmToFulfill_trigger_gate
    (ao : AuctionOracle) (am : AmmMath) (order : Order)
    (market : PerpMarketAccount) (oraclePriceData : OraclePriceData)
    (slot : Nat)
    (htype : order.orderType = OrderType.triggerMarket ∨
      order.orderType = OrderType.triggerLimit)
    (habove : order.triggerCondition ≠ OrderTriggerCondition.triggeredAbove)
    (hbelow : order.triggerCondition ≠ OrderTriggerCondition.triggeredBelow) :
    calculateBaseAssetAmountForAmmToFulfill ao am order market oraclePriceData
      slot = 0 := by
  rcases htype with h | h <;>
    simp [calculateBaseAssetAmountForAmmToFulfill, mustBeTriggered,
      isTriggered, h, habove, hbelow]

/-- C4 witness: an untriggered trigger-market order is not fillable. -/
theorem calculateBaseAssetAmountForAmmToFulfill_trigger_gate_witness :
    calculateBaseAssetAmountForAmmToFulfill auctionDone ammMathAligned
      orderTrigger sampleMarket sampleOracle 0 = 0 :=
  calculateBaseAssetAmountForAmmToFulfill_trigger_gate auctionDone
    ammMathAligned orderTrigger sampleMarket sampleOracle 0 (Or.inl rfl)
    (by decide) (by decide)

/-- C5: when the curve-math collaborator reports a resulting direction
different from the order's direction,
`calculateBaseAssetAmountToFillUpToLimitPrice` returns 0. -/
theorem calculateBaseAssetAmountToFillUpToLimitPrice_direction_mismatch
    (am : AmmMath) (order : Order) (amm : AMM) (limitPrice : Int)
    (oraclePriceData : OraclePriceData)
    (hmis : (am.calculateMaxBaseAssetAmountToTrade amm
        (if order.direction = PositionDirection.long then
          limitPrice - amm.orderTickSize
        else
          limitPrice + amm.orderTickSize)
        order.direction oraclePriceData).2 ≠ order.direction) :
    calculateBaseAssetAmountToFillUpToLimitPrice am order amm limitPrice
      oraclePriceData = 0 := by
  simp [calculateBaseAssetAmountToFillUpToLimitPrice,
    isSameDirection_eq_decide, hmis]

/-- C5 witness: a collaborator reporting the flipped direction with a
positive quantity (500) still yields 0. -/
theorem calculateBaseAssetAmountToFillUpToLimitPrice_dm_witness :
    calculateBaseAssetAmountToFillUpToLimitPrice ammMathOpposed baseOrder
      sampleMarket.amm 50 sampleOracle = 0 :=
  calculateBaseAssetAmountToFillUpToLimitPrice_direction_mismatch
    ammMathOpposed baseOrder sampleMarket.amm 50 sampleOracle (by decide)

/-- C7: an uninitialized order is a no-op for the risk classifiers and
the expiry check. -/
theorem uninitialized_order_noop (user : User) (order : Order) (ts : Nat)
    (h : order.status = OrderStatus.init) :
    isOrderRiskIncreasing user order = false ∧
    isOrderRiskIncreasingInSameDirection user order = false ∧
    isOrderReduceOnly user order = false ∧
    isOrderExpired order ts = false := by
  refine ⟨?_, ?_, ?_, ?_⟩ <;>
    simp [isOrderRiskIncreasing, isOrderRiskIncreasingInSameDirection,
      isOrderReduceOnly, isOrderExpired, h]

/-- C7 witness: the concrete uninitialized order is a no-op everywhere. -/
theorem uninitialized_order_noop_witness :
    isOrderRiskIncreasing userLong10 orderInit = false ∧
    isOrderRiskIncreasingInSameDirection userLong10 orderInit = false ∧
    isOrderReduceOnly userLong10 orderInit = false ∧
    isOrderExpired orderInit 100 = false :=
  uninitialized_order_noop userLong10 orderInit 100 rfl

/-- C10: `isTakingOrder` is the exact negation of `isRestingLimitOrder`,
for every order type and slot. -/
theorem isTakingOrder_iff_not_resting (ao : AuctionOracle) (order : Order)
    (slot : Nat) :
    isTakingOrder ao order slot = true ↔
      isRestingLimitOrder ao order slot = false := by
  cases h : order.orderType <;>
    simp [isTakingOrder, isRestingLimitOrder, isMarketOrder, isLimitOrder, h]

/-- C2: `getLimitPrice` precedence — auction price first, then oracle
offset, then the fallback when the static price is zero, else the static
price. -/
theorem getLimitPrice_precedence (ao : AuctionOracle) (order : Order)
    (oraclePriceData : OraclePriceData) (slot : Nat)
    (fallbackPrice : Option Int) :
    (ao.isAuctionComplete order slot = false ∧
        (order.auctionStartPrice ≠ 0 ∨ order.auctionEndPrice ≠ 0) →
      getLimitPrice ao order oraclePriceData slot fallbackPrice =
        some (ao.getAuctionPrice order slot oraclePriceData.price)) ∧
    (¬(ao.isAuctionComplete order slot = false ∧
        (order.auctionStartPrice ≠ 0 ∨ order.auctionEndPrice ≠ 0)) →
      order.oraclePriceOffset ≠ 0 →
      getLimitPrice ao order oraclePriceData slot fallbackPrice =
        some (oraclePriceData.price + order.oraclePriceOffset)) ∧
    (¬(ao.isAuctionComplete order slot = false ∧
        (order.auctionStartPrice ≠ 0 ∨ order.auctionEndPrice ≠ 0)) →
      order.oraclePriceOffset = 0 → order.price = 0 →
      getLimitPrice ao order oraclePriceData slot fallbackPrice =
        fallbackPrice) ∧
    (¬(ao.isAuctionComplete order slot = false ∧
        (order.auctionStartPrice ≠ 0 ∨ order.auctionEndPrice ≠ 0)) →
      order.oraclePriceOffset = 0 → order.price ≠ 0 →
      getLimitPrice ao order oraclePriceData slot fallbackPrice =
        some order.price) := by
  refine ⟨fun h => ?_, fun h hoff => ?_, fun h hoff hp => ?_,
    fun h hoff hp => ?_⟩
  · rw [getLimitPrice,
      if_pos ((hasAuctionPrice_iff ao order slot).mpr h)]
  · have hap : ¬hasAuctionPrice ao order slot = true := fun hc =>
      h ((hasAuctionPrice_iff ao order slot).mp hc)
    rw [getLimitPrice, if_neg hap, if_pos hoff]
  · have hap : ¬hasAuctionPrice ao order slot = true := fun hc =>
      h ((hasAuctionPrice_iff ao order slot).mp hc)
    rw [getLimitPrice, if_neg hap, if_neg (by simp [hoff]), if_pos hp]
  · have hap : ¬hasAuctionPrice ao order slot = true := fun hc =>
      h ((hasAuctionPrice_iff ao order slot).mp hc)
    rw [getLimitPrice, if_neg hap, if_neg (by simp [hoff]), if_neg hp]

/-- C2 witness: with a live auction and a non-zero oracle offset, the
auction price wins. -/
theorem getLimitPrice_precedence_witness :
    getLimitPrice auctionLive orderAuction sampleOracle 0 none =
      some (auctionLive.getAuctionPrice orderAuction 0 sampleOracle.price) :=
  (getLimitPrice_precedence auctionLive orderAuction sampleOracle 0 none).1
    ⟨rfl, Or.inl (by decide)⟩

/-- C6: for non-negative quantity and positive step size,
`standardizeBaseAssetAmount` is the flooring of the quantity to the step
grid: it equals the quantity minus its remainder, is divisible by the step
size, never rounds up, and is the greatest such multiple. -/
theorem standardizeBaseAssetAmount_floor (q s : Int) (hq : 0 ≤ q)
    (hs : 0 < s) :
    standardizeBaseAssetAmount q s = q - q % s ∧
    s ∣ standardizeBaseAssetAmount q s ∧
    standardizeBaseAssetAmount q s ≤ q ∧
    ∀ m : Int, s ∣ m → m ≤ q → m ≤ standardizeBaseAssetAmount q s := by
  have heq : standardizeBaseAssetAmount q s = q - q % s := by
    rw [standardizeBaseAssetAmount, Int.tmod_eq_emod hq hs.le]
  have hq2 : q - q % s = s * (q / s) := by
    have h3 := Int.ediv_add_emod q s
    linarith
  refine ⟨heq, ?_, ?_, ?_⟩
  · rw [heq, hq2]
    exact dvd_mul_right s (q / s)
  · rw [heq]
    have h4 := Int.emod_nonneg q (ne_of_gt hs)
    linarith
  · intro m hm hmq
    obtain ⟨k, hk⟩ := hm
    have hks : k * s ≤ q := by rw [mul_comm]; linarith
    have hk2 : k ≤ q / s := (Int.le_ediv_iff_mul_le hs).mpr hks
    rw [heq, hq2, hk]
    exact mul_le_mul_of_nonneg_left hk2 hs.le

/-- C6 witness: 1250 with step size 100 truncates to 1200, a multiple of
100 not exceeding 1250. -/
theorem standardizeBaseAssetAmount_floor_witness :
    standardizeBaseAssetAmount 1250 100 = 1200 ∧
    standardizeBaseAssetAmount 1250 100 ≤ 1250 ∧
    (100 : Int) ∣ standardizeBaseAssetAmount 1250 100 := by
  have h := standardizeBaseAssetAmount_floor 1250 100 (by decide) (by decide)
  exact ⟨by decide, h.2.2.1, h.2.1⟩

/-- C8: for a non-uninitialized order, `isOrderReduceOnly` is false exactly
when the position is non-negative with a long order or non-positive with a
short order; a flat position is therefore not reduce-only yet
risk-increasing. -/
theorem isOrderReduceOnly_zero_asymmetry (user : User) (order : Order)
    (h : order.status ≠ OrderStatus.init) :
    (isOrderReduceOnly user order = false ↔
      (0 ≤ (resolvePosition user order.marketIndex).baseAssetAmount ∧
        order.direction = PositionDirection.long) ∨
      ((resolvePosition user order.marketIndex).baseAssetAmount ≤ 0 ∧
        order.direction = PositionDirection.short)) ∧
    ((resolvePosition user order.marketIndex).baseAssetAmount = 0 →
      isOrderReduceOnly user order = false ∧
      isOrderRiskIncreasing user order = true) := by
  constructor
  · simp only [isOrderReduceOnly, if_neg h]
    split_ifs with h1 h2 <;> simp_all
  · intro hp
    constructor
    · simp only [isOrderReduceOnly, if_neg h]
      cases hd : order.direction <;> split_ifs with h1 h2 <;> simp_all
    · simp [isOrderRiskIncreasing, h, hp]

/-- C8 witness: flat position, open long order — not reduce-only, but
risk-increasing. -/
theorem isOrderReduceOnly_zero_asymmetry_witness :
    isOrderReduceOnly userFlat baseOrder = false ∧
    isOrderRiskIncreasing userFlat baseOrder = true :=
  (isOrderReduceOnly_zero_asymmetry userFlat baseOrder (by decide)).2
    (by decide)

/-- The limit-priced fill never exceeds the unfilled remainder (when the
remainder is non-negative). -/
theorem calculateBaseAssetAmountToFillUpToLimitPrice_le_unfilled
    (am : AmmMath) (order : Order) (amm : AMM) (limitPrice : Int)
    (oraclePriceData : OraclePriceData)
    (h0 : 0 ≤ order.baseAssetAmount - order.baseAssetAmountFilled) :
    calculateBaseAssetAmountToFillUpToLimitPrice am order amm limitPrice
      oraclePriceData ≤
      order.baseAssetAmount - order.baseAssetAmountFilled := by
  simp only [calculateBaseAssetAmountToFillUpToLimitPrice]
  split_ifs with hdir hsd hlt hsd2 hlt2
  · exact h0
  · exact le_refl _
  · exact le_of_not_lt hlt
  · exact h0
  · exact le_refl _
  · exact le_of_not_lt hlt2

/-- C9: the curve-fillable quantity never exceeds the order's unfilled
remainder, for any collaborator behaviors. -/
theorem calculateBaseAssetAmountForAmmToFulfill_le_remainder
    (ao : AuctionOracle) (am : AmmMath) (order : Order)
    (market : PerpMarketAccount) (oraclePriceData : OraclePriceData)
    (slot : Nat)
    (h : order.baseAssetAmountFilled ≤ order.baseAssetAmount) :
    calculateBaseAssetAmountForAmmToFulfill ao am order market oraclePriceData
      slot ≤ order.baseAssetAmount - order.baseAssetAmountFilled := by
  have h0 : 0 ≤ order.baseAssetAmount - order.baseAssetAmountFilled := by
    linarith
  simp only [calculateBaseAssetAmountForAmmToFulfill]
  split_ifs with h1
  · exact h0
  · cases hlp : getLimitPrice ao order oraclePriceData slot none
    · exact le_trans (min_le_right _ _) (le_refl _)
    · exact le_trans (min_le_right _ _)
        (calculateBaseAssetAmountToFillUpToLimitPrice_le_unfilled am order
          (am.calculateUpdatedAMM market.amm oraclePriceData) _
          oraclePriceData h0)

/-- C9 witness: the concrete open long order (remainder 100) is filled for
at most 100. -/
theorem calculateBaseAssetAmountForAmmToFulfill_le_remainder_witness :
    calculateBaseAssetAmountForAmmToFulfill auctionDone ammMathAligned
      baseOrder sampleMarket sampleOracle 0 ≤
      baseOrder.baseAssetAmount - baseOrder.baseAssetAmountFilled :=
  calculateBaseAssetAmountForAmmToFulfill_le_remainder auctionDone
    ammMathAligned baseOrder sampleMarket sampleOracle 0 (by decide)

end Orders
